import Mathlib

/-!
# Verification of the TourApp authentication controller

A shallow embedding of `src/server/controllers/authController.js` and of the
external collaborators it relies on (the user store, the JWT codec, the
delivery notifier), together with theorems settling the specification's
claims about the authentication flows.

Conventions of the embedding:
* machine state (the credential store) is a list of user accounts, threaded
  explicitly through each operation;
* a JavaScript value that may be `undefined` is an `Option`;
* a signed JWT is a structured envelope carrying its payload, the secret it
  was signed with, its issued-at and its expiry; verification succeeds
  exactly when the secrets match and the token has not expired (the usual
  symbolic model of signing: forgery is not representable);
* an operation's outcome is `ok` (a response was sent), `appErr` (the
  handler called `next(new AppError(message, status))`), or `crash` (a
  library or runtime error was thrown and propagated through `catchAsync`,
  surfacing outside the typed error taxonomy).
-/

namespace TourApp

/-- An operational error created by `new AppError(message, statusCode)`. -/
structure AppError where
  message : String
  statusCode : Nat
deriving Repr, DecidableEq

/-- A persisted user account.  `password` stores the hashed password and is
`none` when the field is absent from the document; the reset-token fields and
`passwordChangedAt` are likewise optional. -/
structure UserAccount where
  id : Nat
  name : String
  email : String
  password : Option String
  passwordChangedAt : Option Nat
  passwordResetToken : Option String
  passwordResetExpires : Option Nat
deriving Repr, DecidableEq

/-- The credential store: the collection of persisted accounts. -/
abbrev Store := List UserAccount

/-- `User.findOne({ email })`. -/
def findByEmail (store : Store) (email : String) : Option UserAccount :=
  store.find? (fun a => a.email == email)

/-- `User.findById(id)`. -/
def findById (store : Store) (id : Nat) : Option UserAccount :=
  store.find? (fun a => a.id == id)

/-- `user.save()` and `User.create` persistence: replace the account with the
same id (append is handled separately by `create`). -/
def saveUser (store : Store) (acc : UserAccount) : Store :=
  store.map (fun a => if a.id == acc.id then acc else a)

/-- Modelled from the spec: the store's one-way password hash (`password
never stored or compared in plaintext`; the store performs the hashing on
create/save).  An injective symbolic hash. -/
def hashPassword (plain : String) : String :=
  "bcrypt$" ++ plain

/-- Modelled from the spec: `hashOpaque(value) -> hexDigest`, the
deterministic one-way hash (SHA-256 in the source) used for password-reset
token storage and lookup. -/
def hashOpaque (value : String) : String :=
  "sha256$" ++ value

/-- Modelled from the spec: `comparePassword(plain, hash)` — the store's
password comparison against a present stored hash. -/
def comparePassword (plain hash : String) : Bool :=
  hashPassword plain == hash

/-- Modelled from the spec: `hasPasswordChangedSince(account, issuedAt)` —
true when the account's `passwordChangedAt` is later than the token's
issued-at (`changedPasswordAfter` on the user model). -/
def changedPasswordAfter (acc : UserAccount) (jwtIat : Nat) : Bool :=
  match acc.passwordChangedAt with
  | some changedAt => jwtIat < changedAt
  | none => false

/-- JavaScript falsiness of an optional string request field: `undefined`
and the empty string are falsy. -/
def jsFalsyStr (s : Option String) : Bool :=
  match s with
  | none => true
  | some v => v == ""

/-- A signed JWT envelope over a payload type. -/
structure SignedToken (α : Type) where
  payload : α
  secret : String
  iat : Nat
  exp : Nat
deriving Repr, DecidableEq

/-- `jwt.sign(payload, secret, { expiresIn: ttl })` at clock `now`. -/
def jwtSign {α : Type} (payload : α) (secret : String) (now ttl : Nat) :
    SignedToken α :=
  { payload := payload, secret := secret, iat := now, exp := now + ttl }

/-- `jwt.verify(token, secret)` at clock `now`.  The token argument is
optional because the source passes a possibly-undefined header value;
`jwt.verify(undefined, ...)` throws.  Errors are the thrown
`JsonWebTokenError` messages. -/
def jwtVerify {α : Type} (token : Option (SignedToken α)) (secret : String)
    (now : Nat) : Except String α :=
  match token with
  | none => .error "jwt must be provided"
  | some t =>
    if t.secret ≠ secret then .error "invalid signature"
    else if t.exp ≤ now then .error "jwt expired"
    else .ok t.payload

/-- The pending registration carried inside a verification token. -/
structure PendingUser where
  name : String
  email : String
  password : String
  passwordConfirm : String
deriving Repr, DecidableEq

/-- Payload of the email-verification token: `{ user, verifyToken }`. -/
structure VerifyPayload where
  user : PendingUser
  verifyToken : String
deriving Repr, DecidableEq

/-- Payload of an access or refresh token: `{ id }` (issued-at lives in the
envelope). -/
structure SessionPayload where
  id : Nat
deriving Repr, DecidableEq

/-- Environment secrets, as symbolic constants. -/
def verifyEmailSecret : String := "VERIFY_EMAIL_SECRET"

def accessTokenSecret : String := "ACCESS_TOKEN"

def refreshTokenSecret : String := "REFRESH_TOKEN"

/-- TTL of the verification token (`VERIFY_EMAIL_EXPIRES_IN`), in seconds. -/
def verifyEmailTTL : Nat := 600

/-- Access-token TTL: `"5m"`. -/
def accessTokenTTL : Nat := 5 * 60

/-- Refresh-token TTL: `"3d"`. -/
def refreshTokenTTL : Nat := 3 * 24 * 3600

/-- `createVerificationToken(user)`: a random 32-byte hex nonce (passed in
as `verifyNonce`, randomness being a parameter of the embedding) is signed
together with the pending user. -/
def createVerificationToken (user : PendingUser) (verifyNonce : String)
    (now : Nat) : SignedToken VerifyPayload × String :=
  (jwtSign { user := user, verifyToken := verifyNonce } verifyEmailSecret
    now verifyEmailTTL, verifyNonce)

/-- Responses sent by the controller. -/
inductive Response where
  /-- A plain `{ status/success, message }` JSON body. -/
  | message (status : Nat) (msg : String)
  /-- `verifyAccount`'s 201 body: message plus the signed token. -/
  | activation (status : Nat) (msg : String) (token : SignedToken VerifyPayload)
  /-- `sendToken` / `refreshToken` success: cookies and body carrying the
  access and refresh tokens for the given subject. -/
  | session (status : Nat) (subject : Nat)
      (access : SignedToken SessionPayload)
      (refresh : SignedToken SessionPayload)
  /-- `updatePassword`'s 200 body carrying the updated account. -/
  | userOut (status : Nat) (user : UserAccount)
deriving Repr, DecidableEq

/-- Outcome of a handler run: a response, a typed `AppError` handed to
`next`, or a thrown library/runtime error propagated by `catchAsync`. -/
inductive HResult where
  | ok (r : Response)
  | appErr (e : AppError)
  | crash (msg : String)
deriving Repr, DecidableEq

/-- An operation's outcome together with the store it leaves behind. -/
structure Outcome where
  result : HResult
  store : Store
deriving Repr, DecidableEq

/-- Observable side effects of the activate flow, in order. -/
inductive Effect where
  /-- A verification token was signed. -/
  | tokenSigned
  /-- The activation email was handed to the delivery notifier. -/
  | emailSent
deriving Repr, DecidableEq

/-- Outcome of `verifyAccount`, which additionally records its effects. -/
structure ActivateOutcome where
  result : HResult
  store : Store
  effects : List Effect
deriving Repr, DecidableEq

/-- `verifyAccount` (the activate flow).  `verifyNonce` stands for the
randomness drawn by `crypto.randomBytes`; `emailOk` tells whether the
delivery notifier succeeds (`Email.activateRegistration` may throw). -/
def verifyAccount (store : Store) (name email password passwordConfirm : String)
    (verifyNonce : String) (now : Nat) (emailOk : Bool) : ActivateOutcome :=
  match findByEmail store email with
  | some _ =>
    { result := .appErr ⟨"Email Already exists", 400⟩, store := store,
      effects := [] }
  | none =>
    let user : PendingUser :=
      { name := name, email := email, password := password,
        passwordConfirm := passwordConfirm }
    let signedPair := createVerificationToken user verifyNonce now
    if emailOk then
      { result := .ok (.activation 201
          ("Please check your email: " ++ user.email ++
            " to activate your account!") signedPair.1),
        store := store,
        effects := [.tokenSigned, .emailSent] }
    else
      { result := .crash "Email delivery failed", store := store,
        effects := [.tokenSigned] }

/-- Modelled from the spec: `create(fields) -> Account | fails
ValidationError` — the store hashes the password and enforces the
confirm-match rule (`ValidationError` on mismatch), then appends the new
account with a fresh id.  A thrown `ValidationError` propagates through
`catchAsync` like any other exception. -/
def createUser (store : Store) (freshId : Nat) (u : PendingUser) :
    Except String (UserAccount × Store) :=
  if u.password == u.passwordConfirm then
    let acc : UserAccount :=
      { id := freshId, name := u.name, email := u.email,
        password := some (hashPassword u.password),
        passwordChangedAt := none, passwordResetToken := none,
        passwordResetExpires := none }
    .ok (acc, store ++ [acc])
  else .error "ValidationError: passwords are not the same"

/-- Modelled from the spec (section 4.3): `sendToken(user, statusCode, res)`
issues the access and refresh tokens for the subject and returns them with
the account id. -/
def sendToken (user : UserAccount) (statusCode : Nat) (now : Nat) : Response :=
  .session statusCode user.id
    (jwtSign { id := user.id } accessTokenSecret now accessTokenTTL)
    (jwtSign { id := user.id } refreshTokenSecret now refreshTokenTTL)

/-- `signUp` (the complete-signup flow).  `verificationToken` is the bearer
token extracted from the `Authorization` header (absent when the header is
missing or not a `Bearer` one); `pathNonce` is `req.params.verify_token`. -/
def signUp (store : Store) (verificationToken : Option (SignedToken VerifyPayload))
    (pathNonce : String) (freshId : Nat) (now : Nat) : Outcome :=
  match jwtVerify verificationToken verifyEmailSecret now with
  | .error e => { result := .crash e, store := store }
  | .ok newUser =>
    if newUser.verifyToken ≠ pathNonce then
      { result := .appErr ⟨"Invalid token. Please try again", 401⟩,
        store := store }
    else
      match createUser store freshId newUser.user with
      | .error e => { result := .crash e, store := store }
      | .ok (user, store1) =>
        { result := .ok (sendToken user 201 now), store := store1 }

/-- `login`.  Missing or empty email/password are falsy in JavaScript and hit
the 400 branch; otherwise the user is looked up by email with the password
field included and the password compared.  `user.correctPassword` on an
account with no stored password throws (the bcrypt compare rejects on a
missing hash argument). -/
def login (store : Store) (email password : Option String) (now : Nat) :
    Outcome :=
  if jsFalsyStr email || jsFalsyStr password then
    { result := .appErr ⟨"Please provide email and password!", 400⟩,
      store := store }
  else
    match findByEmail store (email.getD "") with
    | none =>
      { result := .appErr ⟨"Incorrect email or password", 401⟩, store := store }
    | some user =>
      match user.password with
      | none =>
        { result := .crash "bcrypt: data and hash arguments required",
          store := store }
      | some hash =>
        if comparePassword (password.getD "") hash then
          { result := .ok (sendToken user 200 now), store := store }
        else
          { result := .appErr ⟨"Incorrect email or password", 401⟩,
            store := store }

/-- JavaScript truthiness of a decoded refresh-token payload: `jwt.verify`
returns the decoded payload object on success, and an object is always
truthy. -/
def jsTruthyPayload (_p : SessionPayload) : Bool := true

/-- `refreshToken` (the refresh flow).  `cookieToken` is
`req.cookies.refresh_token`.  On success the pair is rotated: fresh access
("5m") and refresh ("3d") tokens are minted for the subject. -/
def refreshToken (store : Store) (cookieToken : Option (SignedToken SessionPayload))
    (now : Nat) : Outcome :=
  match cookieToken, jwtVerify cookieToken refreshTokenSecret now with
  | _, .error e => { result := .crash e, store := store }
  | none, .ok _ => { result := .crash "unreachable", store := store }
  | some t, .ok decoded =>
    if !jsTruthyPayload decoded then
      { result := .appErr ⟨"Could not refresh token", 400⟩, store := store }
    else
      match findById store decoded.id with
      | none =>
        { result := .appErr ⟨"Please login to access these resources!", 400⟩,
          store := store }
      | some currentUser =>
        if changedPasswordAfter currentUser t.iat then
          { result := .appErr
              ⟨"User recently changed password! Please log in again.", 401⟩,
            store := store }
        else
          { result := .ok (.session 200 currentUser.id
              (jwtSign { id := currentUser.id } accessTokenSecret now
                accessTokenTTL)
              (jwtSign { id := currentUser.id } refreshTokenSecret now
                refreshTokenTTL)),
            store := store }

/-- The guard `user?.password === "undefined"` of `updatePassword`: optional
chaining yields `undefined` when the user or the field is absent, and
`undefined === "undefined"` is false, so the guard fires only when the
stored password is literally the string `"undefined"`. -/
def passwordIsUndefinedString (user : Option UserAccount) : Bool :=
  match user with
  | some a => a.password == some "undefined"
  | none => false

/-- `updatePassword` (authenticated; `reqUserId` is `req.user._id`).  After
the guard, `user.correctPassword(...)` dereferences `user`: when `findById`
returned nothing this is a `TypeError` on `undefined`, and when the stored
password is absent the bcrypt compare throws on the missing hash. -/
def updatePassword (store : Store) (reqUserId : Nat)
    (oldPassword newPassword passwordConfirm : Option String) (now : Nat) :
    Outcome :=
  if jsFalsyStr oldPassword || jsFalsyStr newPassword then
    { result := .appErr ⟨"Please provide your old and new passwords", 400⟩,
      store := store }
  else if jsFalsyStr passwordConfirm then
    { result := .appErr ⟨"Please confirm your password", 400⟩, store := store }
  else
    let user := findById store reqUserId
    if passwordIsUndefinedString user then
      { result := .appErr ⟨"Invalid user", 400⟩, store := store }
    else
      match user with
      | none =>
        { result := .crash
            "TypeError: Cannot read properties of undefined (reading correctPassword)",
          store := store }
      | some a =>
        match a.password with
        | none =>
          { result := .crash "bcrypt: data and hash arguments required",
            store := store }
        | some hash =>
          if !comparePassword (oldPassword.getD "") hash then
            { result := .appErr ⟨"Your current password is wrong.", 401⟩,
              store := store }
          else if (newPassword.getD "") ≠ (passwordConfirm.getD "") then
            { result := .crash "ValidationError: passwords are not the same",
              store := store }
          else
            let updated : UserAccount :=
              { a with
                password := some (hashPassword (newPassword.getD "")),
                passwordChangedAt := some now }
            { result := .ok (.userOut 200 updated),
              store := saveUser store updated }

/-- Modelled from the spec: `generateResetToken(account) -> rawToken`
(`user.createPasswordResetToken()` on the user model) — sets the account's
reset fields in memory to the one-way hash of the raw token and an absolute
expiry ten minutes out; the caller persists. -/
def createPasswordResetToken (acc : UserAccount) (rawToken : String)
    (now : Nat) : UserAccount :=
  { acc with
    passwordResetToken := some (hashOpaque rawToken),
    passwordResetExpires := some (now + 10 * 60 * 1000) }

/-- `forgotPassword`.  `rawToken` stands for the randomness of the reset
token; `emailOk` tells whether `Email.sendPasswordReset` succeeds.  On
delivery failure the persisted hash/expiry are cleared and persisted again
before the 500 surfaces. -/
def forgotPassword (store : Store) (email : Option String) (rawToken : String)
    (now : Nat) (emailOk : Bool) : Outcome :=
  match findByEmail store (email.getD "") with
  | none =>
    { result := .appErr ⟨"There is no user with email address.", 404⟩,
      store := store }
  | some user =>
    let user1 := createPasswordResetToken user rawToken now
    let store1 := saveUser store user1
    if emailOk then
      { result := .ok (.message 200 "Token sent to email!"), store := store1 }
    else
      let user2 := { user1 with
        passwordResetToken := none, passwordResetExpires := none }
      { result := .appErr
          ⟨"There was an error sending the email. Try again later!", 500⟩,
        store := saveUser store1 user2 }

/-- The `findOne` query of `resetPassword`: the stored hash equals the hash
of the presented raw token and `passwordResetExpires` is strictly in the
future (`$gt: Date.now()`). -/
def resetQueryMatches (hashedToken : String) (now : Nat) (a : UserAccount) :
    Bool :=
  a.passwordResetToken == some hashedToken &&
    (match a.passwordResetExpires with
     | some e => now < e
     | none => false)

/-- `resetPassword`.  `rawToken` is `req.params.token`.  On a match the
password fields are set, the reset fields cleared, and the save (with full
validation: confirm must match) re-hashes the password and stamps
`passwordChangedAt`. -/
def resetPassword (store : Store) (rawToken : String)
    (password passwordConfirm : Option String) (now : Nat) : Outcome :=
  let hashedToken := hashOpaque rawToken
  match store.find? (resetQueryMatches hashedToken now) with
  | none =>
    { result := .appErr ⟨"Token is invalid or has expired", 400⟩,
      store := store }
  | some user =>
    if jsFalsyStr password then
      { result := .crash "ValidationError: a password is required",
        store := store }
    else if password ≠ passwordConfirm then
      { result := .crash "ValidationError: passwords are not the same",
        store := store }
    else
      let updated : UserAccount :=
        { user with
          password := some (hashPassword (password.getD "")),
          passwordChangedAt := some now,
          passwordResetToken := none,
          passwordResetExpires := none }
      { result := .ok (.message 200
          "Password reset successful. Please, log in with your new password."),
        store := saveUser store updated }

/-! ## Helper lemmas -/

/-- An element of `saveUser store acc` bearing `acc`'s id is `acc` itself. -/
theorem saveUser_mem_id (store : Store) (acc : UserAccount) (b : UserAccount)
    (hb : b ∈ saveUser store acc) (hid : b.id = acc.id) : b = acc := by
  unfold saveUser at hb
  rcases List.mem_map.mp hb with ⟨a, _, hfa⟩
  by_cases h : a.id == acc.id
  · simpa [h] using hfa.symm
  · rw [if_neg h] at hfa
    subst hfa
    exact absurd (beq_iff_eq.mpr hid) h

/-! ## Claims -/

/-- C1: for every signed verification token and path nonce where the nonce
embedded inside the signed token differs from the nonce supplied in the URL
path, the complete-signup operation fails with the 401 `TokenInvalid` error
and the store is left unchanged (no account is persisted). -/
theorem signUp_nonce_mismatch (store : Store) (t : SignedToken VerifyPayload)
    (pathNonce : String) (freshId now : Nat)
    (hsec : t.secret = verifyEmailSecret) (hexp : now < t.exp)
    (hnonce : t.payload.verifyToken ≠ pathNonce) :
    signUp store (some t) pathNonce freshId now =
      { result := .appErr ⟨"Invalid token. Please try again", 401⟩,
        store := store } := by
  unfold signUp jwtVerify
  simp [hsec, Nat.not_le.mpr hexp, hnonce]

/-- Witness for C1 at a concrete mismatched token/nonce pair. -/
theorem signUp_nonce_mismatch_witness :
    signUp []
      (some (jwtSign
        ({ user := { name := "n", email := "a@x.com", password := "p",
                     passwordConfirm := "p" },
           verifyToken := "A" } : VerifyPayload)
        verifyEmailSecret 0 verifyEmailTTL))
      "B" 1 5 =
      { result := .appErr ⟨"Invalid token. Please try again", 401⟩,
        store := [] } :=
  signUp_nonce_mismatch [] _ "B" 1 5 rfl (by decide) (by decide)

/-- C6: a registration whose email already matches an account fails with
`DuplicateEmail` (400) and produces no effects: no verification token is
signed and no activation email is sent. -/
theorem verifyAccount_duplicate_email (store : Store)
    (name email password passwordConfirm verifyNonce : String) (now : Nat)
    (emailOk : Bool) (u : UserAccount)
    (hfind : findByEmail store email = some u) :
    verifyAccount store name email password passwordConfirm verifyNonce now
        emailOk =
      { result := .appErr ⟨"Email Already exists", 400⟩, store := store,
        effects := [] } := by
  unfold verifyAccount
  rw [hfind]

/-- Witness for C6 on a store already holding the email. -/
theorem verifyAccount_duplicate_email_witness :
    verifyAccount
      [{ id := 1, name := "n", email := "a@x.com",
         password := some (hashPassword "p"), passwordChangedAt := none,
         passwordResetToken := none, passwordResetExpires := none }]
      "m" "a@x.com" "q" "q" "nonce" 7 true =
      { result := .appErr ⟨"Email Already exists", 400⟩,
        store :=
          [{ id := 1, name := "n", email := "a@x.com",
             password := some (hashPassword "p"), passwordChangedAt := none,
             passwordResetToken := none, passwordResetExpires := none }],
        effects := [] } :=
  verifyAccount_duplicate_email _ "m" "a@x.com" "q" "q" "nonce" 7 true _ rfl

/-- C8: the activate flow persists nothing — for every input (duplicate or
fresh email, delivery success or failure) the store after the flow equals
the store before. -/
theorem verifyAccount_persists_nothing (store : Store)
    (name email password passwordConfirm verifyNonce : String) (now : Nat)
    (emailOk : Bool) :
    (verifyAccount store name email password passwordConfirm verifyNonce now
      emailOk).store = store := by
  unfold verifyAccount
  cases hfind : findByEmail store email with
  | none => cases emailOk <;> simp
  | some u => simp

/-- C10: the refresh flow's "Could not refresh token" (400) branch is
unreachable — a successfully verified payload is an object, hence truthy,
so no input produces that error. -/
theorem refreshToken_falsy_branch_unreachable (store : Store)
    (cookieToken : Option (SignedToken SessionPayload)) (now : Nat) :
    (refreshToken store cookieToken now).result ≠
      .appErr ⟨"Could not refresh token", 400⟩ := by
  unfold refreshToken
  cases cookieToken with
  | none => simp [jwtVerify]
  | some t =>
    unfold jwtVerify
    by_cases hsec : t.secret = refreshTokenSecret
    · by_cases hexp : t.exp ≤ now
      · simp [hsec, hexp]
      · cases hfind : findById store t.payload.id with
        | none => simp [hsec, hexp, hfind, jsTruthyPayload]
        | some u =>
          by_cases hch : changedPasswordAfter u t.iat
          · simp [hsec, hexp, hfind, jsTruthyPayload, hch]
          · simp [hsec, hexp, hfind, jsTruthyPayload, hch]
    · simp [hsec]

/-- C4: login against a store with no account for the email and login
against a store whose account's password comparison fails produce literally
the same result — the same `InvalidCredentials` error kind, status 401 and
message, leaving no user-existence leak. -/
theorem login_no_user_vs_wrong_password (s1 s2 : Store)
    (email password : String) (n1 n2 : Nat) (u : UserAccount) (hash : String)
    (hemail : email ≠ "") (hpw : password ≠ "")
    (h1 : findByEmail s1 email = none)
    (h2 : findByEmail s2 email = some u) (hfield : u.password = some hash)
    (hcmp : comparePassword password hash = false) :
    (login s1 (some email) (some password) n1).result =
      (login s2 (some email) (some password) n2).result ∧
    (login s1 (some email) (some password) n1).result =
      .appErr ⟨"Incorrect email or password", 401⟩ := by
  unfold login
  simp only [jsFalsyStr, beq_iff_eq, hemail, hpw, Bool.or_self,
    Option.getD_some, h1, h2, hfield, hcmp, if_false, ite_false]
  simp [hemail, hpw]

/-- Witness for C4: empty store versus a store holding the account with a
different password. -/
theorem login_no_user_vs_wrong_password_witness :
    (login [] (some "a@x.com") (some "guess") 3).result =
      (login
        [{ id := 1, name := "n", email := "a@x.com",
           password := some (hashPassword "right"), passwordChangedAt := none,
           passwordResetToken := none, passwordResetExpires := none }]
        (some "a@x.com") (some "guess") 9).result ∧
    (login [] (some "a@x.com") (some "guess") 3).result =
      .appErr ⟨"Incorrect email or password", 401⟩ :=
  login_no_user_vs_wrong_password [] _ "a@x.com" "guess" 3 9 _
    (hashPassword "right") (by decide) (by decide) rfl rfl rfl (by decide)

/-- C3: when the refresh cookie verifies under the refresh secret and the
subject exists, the refresh flow rejects with the 401 `StalePassword` error
exactly when the account's `passwordChangedAt` is later than the token's
issued-at; otherwise it succeeds, rotating the access/refresh pair. -/
theorem refreshToken_freshness (store : Store)
    (t : SignedToken SessionPayload) (now : Nat) (u : UserAccount)
    (hsec : t.secret = refreshTokenSecret) (hexp : now < t.exp)
    (hfind : findById store t.payload.id = some u) :
    (changedPasswordAfter u t.iat = true →
      refreshToken store (some t) now =
        { result := .appErr
            ⟨"User recently changed password! Please log in again.", 401⟩,
          store := store }) ∧
    (changedPasswordAfter u t.iat = false →
      refreshToken store (some t) now =
        { result := .ok (.session 200 u.id
            (jwtSign { id := u.id } accessTokenSecret now accessTokenTTL)
            (jwtSign { id := u.id } refreshTokenSecret now refreshTokenTTL)),
          store := store }) := by
  unfold refreshToken jwtVerify
  constructor
  · intro hch
    simp [hsec, Nat.not_le.mpr hexp, hfind, jsTruthyPayload, hch]
  · intro hch
    simp [hsec, Nat.not_le.mpr hexp, hfind, jsTruthyPayload, hch]

/-- Witness for C3, stale side: a token issued at 5 against an account whose
password changed at 10 is rejected as stale. -/
theorem refreshToken_freshness_witness :
    refreshToken
      [{ id := 1, name := "n", email := "a@x.com",
         password := some (hashPassword "p"), passwordChangedAt := some 10,
         passwordResetToken := none, passwordResetExpires := none }]
      (some { payload := { id := 1 }, secret := refreshTokenSecret, iat := 5,
              exp := 100 })
      20 =
      { result := .appErr
          ⟨"User recently changed password! Please log in again.", 401⟩,
        store :=
          [{ id := 1, name := "n", email := "a@x.com",
             password := some (hashPassword "p"), passwordChangedAt := some 10,
             passwordResetToken := none, passwordResetExpires := none }] } :=
  (refreshToken_freshness
    [{ id := 1, name := "n", email := "a@x.com",
       password := some (hashPassword "p"), passwordChangedAt := some 10,
       passwordResetToken := none, passwordResetExpires := none }]
    { payload := { id := 1 }, secret := refreshTokenSecret, iat := 5,
      exp := 100 }
    20
    { id := 1, name := "n", email := "a@x.com",
      password := some (hashPassword "p"), passwordChangedAt := some 10,
      passwordResetToken := none, passwordResetExpires := none }
    rfl (by decide) rfl).1 (by decide)

/-- C5: if the reset email cannot be delivered after the reset-token hash
and expiry were persisted, the forgot-password flow clears both fields,
persists again, and fails with the 500 `DeliveryFailed` error — no account
with the subject's id retains a reset hash or expiry. -/
theorem forgotPassword_delivery_failure_rollback (store : Store)
    (email : Option String) (rawToken : String) (now : Nat) (u : UserAccount)
    (hfind : findByEmail store (email.getD "") = some u) :
    (forgotPassword store email rawToken now false).result =
      .appErr ⟨"There was an error sending the email. Try again later!", 500⟩ ∧
    ∀ b ∈ (forgotPassword store email rawToken now false).store,
      b.id = u.id →
        b.passwordResetToken = none ∧ b.passwordResetExpires = none := by
  unfold forgotPassword
  rw [hfind]
  refine ⟨by simp, ?_⟩
  intro b hb hid
  simp only [Bool.false_eq_true, if_false, ite_false] at hb
  have hbu := saveUser_mem_id _ _ b hb (by simpa [createPasswordResetToken] using hid)
  rw [hbu]
  exact ⟨rfl, rfl⟩

/-- Witness for C5: delivery failure for a present account leaves the
rollback error and a cleared store. -/
theorem forgotPassword_delivery_failure_rollback_witness :
    (forgotPassword
      [{ id := 1, name := "n", email := "a@x.com",
         password := some (hashPassword "p"), passwordChangedAt := none,
         passwordResetToken := none, passwordResetExpires := none }]
      (some "a@x.com") "tok" 50 false).result =
      .appErr ⟨"There was an error sending the email. Try again later!", 500⟩ :=
  (forgotPassword_delivery_failure_rollback
    [{ id := 1, name := "n", email := "a@x.com",
       password := some (hashPassword "p"), passwordChangedAt := none,
       passwordResetToken := none, passwordResetExpires := none }]
    (some "a@x.com") "tok" 50
    { id := 1, name := "n", email := "a@x.com",
      password := some (hashPassword "p"), passwordChangedAt := none,
      passwordResetToken := none, passwordResetExpires := none }
    rfl).1

/-- C2: a password-reset token is single-use.  A successful reset clears
both `passwordResetToken` and `passwordResetExpires` on the persisted
account, and — provided the token's hash identified only that account — a
second reset with the same raw token fails with the 400 `TokenInvalid`
error, at any later time and with any passwords. -/
theorem resetPassword_single_use (store : Store) (rawToken : String)
    (password passwordConfirm p2 pc2 : Option String) (now now2 : Nat)
    (u : UserAccount)
    (hfind : store.find? (resetQueryMatches (hashOpaque rawToken) now) = some u)
    (huniq : ∀ a ∈ store,
      a.passwordResetToken = some (hashOpaque rawToken) → a.id = u.id)
    (hpw : jsFalsyStr password = false)
    (hconf : password = passwordConfirm) :
    (resetPassword store rawToken password passwordConfirm now).result =
      .ok (.message 200
        "Password reset successful. Please, log in with your new password.") ∧
    (∀ b ∈ (resetPassword store rawToken password passwordConfirm now).store,
      b.id = u.id →
        b.passwordResetToken = none ∧ b.passwordResetExpires = none) ∧
    (resetPassword
        (resetPassword store rawToken password passwordConfirm now).store
        rawToken p2 pc2 now2).result =
      .appErr ⟨"Token is invalid or has expired", 400⟩ := by
  subst hconf
  have hrun : resetPassword store rawToken password password now =
      { result := .ok (.message 200
          "Password reset successful. Please, log in with your new password."),
        store := saveUser store
          { u with
            password := some (hashPassword (password.getD "")),
            passwordChangedAt := some now,
            passwordResetToken := none,
            passwordResetExpires := none } } := by
    unfold resetPassword
    simp [hfind, hpw]
  rw [hrun]
  refine ⟨rfl, ?_, ?_⟩
  · intro b hb hid
    have hbu := saveUser_mem_id _ _ b hb hid
    rw [hbu]
    exact ⟨rfl, rfl⟩
  · have hnone : List.find? (resetQueryMatches (hashOpaque rawToken) now2)
        (saveUser store
          { u with
            password := some (hashPassword (password.getD "")),
            passwordChangedAt := some now,
            passwordResetToken := none,
            passwordResetExpires := none }) = none := by
      rw [List.find?_eq_none]
      intro b hb
      unfold saveUser at hb
      rcases List.mem_map.mp hb with ⟨a, ha, hfa⟩
      by_cases hids : (a.id == u.id)
      · rw [if_pos hids] at hfa
        rw [← hfa]
        simp [resetQueryMatches]
      · rw [if_neg hids] at hfa
        rw [← hfa]
        have hne : a.passwordResetToken ≠ some (hashOpaque rawToken) := by
          intro hcontra
          exact hids (beq_iff_eq.mpr (huniq a ha hcontra))
        simp [resetQueryMatches, hne]
    unfold resetPassword
    simp [hnone]

/-- Witness for C2: a concrete reset consumed once succeeds and fails on
reuse. -/
theorem resetPassword_single_use_witness :
    (resetPassword
      [{ id := 1, name := "n", email := "a@x.com",
         password := some (hashPassword "old"), passwordChangedAt := none,
         passwordResetToken := some (hashOpaque "tok"),
         passwordResetExpires := some 100 }]
      "tok" (some "newpass1") (some "newpass1") 50).result =
      .ok (.message 200
        "Password reset successful. Please, log in with your new password.") ∧
    (resetPassword
      (resetPassword
        [{ id := 1, name := "n", email := "a@x.com",
           password := some (hashPassword "old"), passwordChangedAt := none,
           passwordResetToken := some (hashOpaque "tok"),
           passwordResetExpires := some 100 }]
        "tok" (some "newpass1") (some "newpass1") 50).store
      "tok" (some "x") (some "x") 60).result =
      .appErr ⟨"Token is invalid or has expired", 400⟩ :=
  ⟨(resetPassword_single_use
      [{ id := 1, name := "n", email := "a@x.com",
         password := some (hashPassword "old"), passwordChangedAt := none,
         passwordResetToken := some (hashOpaque "tok"),
         passwordResetExpires := some 100 }]
      "tok" (some "newpass1") (some "newpass1") (some "x") (some "x") 50 60
      { id := 1, name := "n", email := "a@x.com",
        password := some (hashPassword "old"), passwordChangedAt := none,
        passwordResetToken := some (hashOpaque "tok"),
        passwordResetExpires := some 100 }
      (by decide) (by decide) (by decide) rfl).1,
   (resetPassword_single_use
      [{ id := 1, name := "n", email := "a@x.com",
         password := some (hashPassword "old"), passwordChangedAt := none,
         passwordResetToken := some (hashOpaque "tok"),
         passwordResetExpires := some 100 }]
      "tok" (some "newpass1") (some "newpass1") (some "x") (some "x") 50 60
      { id := 1, name := "n", email := "a@x.com",
        password := some (hashPassword "old"), passwordChangedAt := none,
        passwordResetToken := some (hashOpaque "tok"),
        passwordResetExpires := some 100 }
      (by decide) (by decide) (by decide) rfl).2.2⟩

/-- C9: when `findById` returns no account for the authenticated subject,
`updatePassword` dereferences the missing value calling
`user.correctPassword` — the `user?.password === "undefined"` guard does not
cover the absent-account case — so the run ends in an untyped runtime error
rather than a typed `AppError`. -/
theorem updatePassword_missing_account_dereference (store : Store)
    (reqUserId : Nat) (oldPassword newPassword passwordConfirm : Option String)
    (now : Nat)
    (h1 : jsFalsyStr oldPassword = false) (h2 : jsFalsyStr newPassword = false)
    (h3 : jsFalsyStr passwordConfirm = false)
    (hfind : findById store reqUserId = none) :
    updatePassword store reqUserId oldPassword newPassword passwordConfirm
        now =
      { result := .crash
          "TypeError: Cannot read properties of undefined (reading correctPassword)",
        store := store } := by
  unfold updatePassword
  simp [h1, h2, h3, hfind, passwordIsUndefinedString]

/-- Witness for C9: an empty store and a well-formed request crash. -/
theorem updatePassword_missing_account_dereference_witness :
    updatePassword [] 1 (some "a") (some "b") (some "b") 0 =
      { result := .crash
          "TypeError: Cannot read properties of undefined (reading correctPassword)",
        store := [] } :=
  updatePassword_missing_account_dereference [] 1 (some "a") (some "b")
    (some "b") 0 (by decide) (by decide) (by decide) rfl

/-- C7 (code evaluated at the failing input): for an account whose stored
password field is genuinely absent, `updatePassword` does not reject with
the typed `InvalidAccount` error — the string-literal guard
`user?.password === "undefined"` misses the absent field and the flow
reaches the old-password comparison, which throws. -/
theorem updatePassword_absent_password_not_rejected :
    updatePassword
        [{ id := 1, name := "n", email := "a@x.com", password := none,
           passwordChangedAt := none, passwordResetToken := none,
           passwordResetExpires := none }]
        1 (some "old") (some "new") (some "new") 0 =
      { result := .crash "bcrypt: data and hash arguments required",
        store :=
          [{ id := 1, name := "n", email := "a@x.com", password := none,
             passwordChangedAt := none, passwordResetToken := none,
             passwordResetExpires := none }] } ∧
    (updatePassword
        [{ id := 1, name := "n", email := "a@x.com", password := none,
           passwordChangedAt := none, passwordResetToken := none,
           passwordResetExpires := none }]
        1 (some "old") (some "new") (some "new") 0).result ≠
      .appErr ⟨"Invalid user", 400⟩ := by
  constructor
  · decide
  · decide

end TourApp
